import Mathlib

/-!
Verification of the integrity-protection core of an IPMI v2.0/RMCP+ session
layer (`src/integrity_algo.hpp`, namespace `cipher::integrity`).

Packets and keys are byte sequences, embedded as `List Nat` (each element a
byte value; `uint8_t` arithmetic is taken modulo 256 where it matters).  The
repository ships only the header: the declarations, the derivation constant
`const1`, the `Algorithms` enumeration and the class layout are taken from the
header, while the method bodies (which live in `integrity_algo.cpp`, not part
of the sources) are modelled from the specification's description of the
HMAC-SHA1-96 algorithm, backed by an executable SHA-1 / HMAC-SHA1
implementation written here and checked against published test vectors.  The
compression function keeps its five-word state and its message schedule packed
into single natural numbers (32 bits per word), which the kernel evaluates
through its accelerated bignum arithmetic.
-/

set_option maxRecDepth 100000

set_option maxHeartbeats 1000000

namespace Cipher

namespace Integrity

/-- 32-bit truncation used throughout the SHA-1 compression function. -/
def w32 (x : Nat) : Nat := x % 4294967296

/-- Left rotation of a 32-bit word by `n` bits. -/
def rotl (n x : Nat) : Nat := w32 (x <<< n) ||| (x >>> (32 - n))

/-- Big-endian serialization of a 32-bit word into four bytes. -/
def wordToBytes (x : Nat) : List Nat :=
  [(x >>> 24) % 256, (x >>> 16) % 256, (x >>> 8) % 256, x % 256]

/-- Pack a byte list into one natural number, big-endian (first byte at the
most significant position). -/
def bytesToNat (l : List Nat) : Nat := l.foldl (fun acc b => acc * 256 + b % 256) 0

/-- Reverse the word order of a packed 16-word block so that word `w[i]`
sits at bits `32 * i` (fuel-indexed so the definition reduces in the
kernel). -/
def flipW : Nat → Nat → Nat → Nat
  | 0, _, acc => acc
  | fuel + 1, B, acc => flipW fuel (B >>> 32) ((acc <<< 32) + (B % 4294967296))

/-- Extend the sixteen message-schedule words to eighty by the SHA-1
recurrence `w[i] = rotl1 (w[i-3] xor w[i-8] xor w[i-14] xor w[i-16])`,
with word `w[i]` packed at bits `32 * i`. -/
def extendW : Nat → Nat → Nat → Nat
  | 0, _, W => W
  | fuel + 1, i, W =>
      extendW fuel (i + 1) (W + (rotl 1
        (((W >>> (32 * (i - 3))) % 4294967296) ^^^ ((W >>> (32 * (i - 8))) % 4294967296) ^^^
         ((W >>> (32 * (i - 14))) % 4294967296) ^^^ ((W >>> (32 * (i - 16))) % 4294967296))) <<< (32 * i))

/-- The SHA-1 round-dependent bitwise function on the middle state words. -/
def sha1F (i b c d : Nat) : Nat :=
  if i < 20 then (b &&& c) ||| ((b ^^^ 4294967295) &&& d)
  else if i < 40 then b ^^^ c ^^^ d
  else if i < 60 then (b &&& c) ||| (b &&& d) ||| (c &&& d)
  else b ^^^ c ^^^ d

/-- The SHA-1 round constant for round `i`. -/
def sha1K (i : Nat) : Nat :=
  if i < 20 then 1518500249
  else if i < 40 then 1859775393
  else if i < 60 then 2400959708
  else 3395469782

/-- The eighty SHA-1 rounds.  The state packs the five chaining words
`a|b|c|d|e` from the most significant 32-bit slot down to the least. -/
def rounds : Nat → Nat → Nat → Nat → Nat
  | 0, _, _, st => st
  | fuel + 1, i, W, st =>
      rounds fuel (i + 1) W
        ((w32 (rotl 5 (st >>> 128) + sha1F i ((st >>> 96) % 4294967296) ((st >>> 64) % 4294967296)
            ((st >>> 32) % 4294967296) + (st % 4294967296) + sha1K i + ((W >>> (32 * i)) % 4294967296)) <<< 128) +
         ((st >>> 128) <<< 96) + ((rotl 30 ((st >>> 96) % 4294967296)) <<< 64) +
         (((st >>> 64) % 4294967296) <<< 32) + ((st >>> 32) % 4294967296))

/-- Process one 64-byte block (packed big-endian into `B`), updating the
packed five-word chaining state. -/
def sha1Compress (h B : Nat) : Nat :=
  let W := extendW 64 16 (flipW 16 B 0)
  let st := rounds 80 0 W h
  (w32 ((h >>> 128) + (st >>> 128)) <<< 128) +
  (w32 (((h >>> 96) % 4294967296) + ((st >>> 96) % 4294967296)) <<< 96) +
  (w32 (((h >>> 64) % 4294967296) + ((st >>> 64) % 4294967296)) <<< 64) +
  (w32 (((h >>> 32) % 4294967296) + ((st >>> 32) % 4294967296)) <<< 32) +
  w32 ((h % 4294967296) + (st % 4294967296))

/-- The packed SHA-1 initial state: the five words
`67452301 EFCDAB89 98BADCFE 10325476 C3D2E1F0`. -/
def sha1Init : Nat := 589567850402597453564513526754136399297876517360

/-- Merkle–Damgård padding: byte `0x80`, zeros up to 56 mod 64, then the
message bit length as eight big-endian bytes. -/
def sha1Pad (msg : List Nat) : List Nat :=
  msg ++ [128] ++ List.replicate ((119 - msg.length % 64) % 64) 0 ++
    [(msg.length * 8) >>> 56 % 256, (msg.length * 8) >>> 48 % 256,
     (msg.length * 8) >>> 40 % 256, (msg.length * 8) >>> 32 % 256,
     (msg.length * 8) >>> 24 % 256, (msg.length * 8) >>> 16 % 256,
     (msg.length * 8) >>> 8 % 256, (msg.length * 8) % 256]

/-- Split a padded message into 64-byte blocks (fuel-indexed). -/
def toBlocks : Nat → List Nat → List (List Nat)
  | 0, _ => []
  | _, [] => []
  | n + 1, l => l.take 64 :: toBlocks n (l.drop 64)

/-- Serialize the packed final chaining state to the 20-byte digest. -/
def sha1Out (h : Nat) : List Nat :=
  wordToBytes (h >>> 128) ++ wordToBytes ((h >>> 96) % 4294967296) ++
    wordToBytes ((h >>> 64) % 4294967296) ++ wordToBytes ((h >>> 32) % 4294967296) ++
    wordToBytes (h % 4294967296)

/-- SHA-1 of a byte sequence. -/
def sha1 (msg : List Nat) : List Nat :=
  sha1Out ((toBlocks (sha1Pad msg).length (sha1Pad msg)).foldl
    (fun h b => sha1Compress h (bytesToNat b)) sha1Init)

/-- RFC 2104 key preprocessing: hash keys longer than the 64-byte block. -/
def hmacKey (key : List Nat) : List Nat := if 64 < key.length then sha1 key else key

/-- RFC 2104 key padding to the 64-byte block size. -/
def hmacPad (key : List Nat) : List Nat :=
  hmacKey key ++ List.replicate (64 - (hmacKey key).length) 0

/-- HMAC-SHA1 per RFC 2104: `H((K xor opad) ++ H((K xor ipad) ++ msg))`. -/
def hmacSha1 (key msg : List Nat) : List Nat :=
  sha1 (((hmacPad key).map (fun b => b ^^^ 92)) ++
    sha1 (((hmacPad key).map (fun b => b ^^^ 54)) ++ msg))

/-- `SHA_DIGEST_LENGTH` from `<openssl/sha.h>`: the SHA-1 digest size. -/
def SHA_DIGEST_LENGTH : Nat := 20

/-- The derivation constant `const1` of `integrity_algo.hpp`: the byte `0x01`
repeated twenty times. -/
def const1 : List Nat :=
  [1, 1, 1, 1, 1, 1, 1, 1, 1, 1, 1, 1, 1, 1, 1, 1, 1, 1, 1, 1]

/-- The `Algorithms` enumeration of `integrity_algo.hpp`. -/
inductive Algorithms : Type where
  | NONE : Algorithms
  | HMAC_SHA1_96 : Algorithms
  | HMAC_MD5_128 : Algorithms
  | MD5_128 : Algorithms
  | HMAC_SHA256_128 : Algorithms
deriving DecidableEq

/-- The data members of the `cipher::integrity::Interface` base class: the
derived key `K1` and the AuthCode length. -/
structure Intf : Type where
  K1 : List Nat
  authCodeLength : Nat
deriving DecidableEq

/-- Modelled from the spec: the `Interface` constructor body lives in
`integrity_algo.cpp`, which is not among the sources.  Per the spec it runs
the key deriver `K1 = HMAC(key = sik, message = addKey)` once, stores the
AuthCode length, and construction with an AuthCode length exceeding the hash
digest size must fail loudly (modelled as `none`). -/
def mkIntf (sik addKey : List Nat) (authLength : Nat) : Option Intf :=
  if authLength ≤ SHA_DIGEST_LENGTH then
    some { K1 := hmacSha1 sik addKey, authCodeLength := authLength }
  else
    none

/-- `AlgoSHA1::SHA1_96_AUTHCODE_LENGTH` from `integrity_algo.hpp`. -/
def SHA1_96_AUTHCODE_LENGTH : Nat := 12

/-- The state of a constructed `AlgoSHA1` instance: the `AlgoSHA1`
constructor forwards `(sik, const1, SHA1_96_AUTHCODE_LENGTH)` to the base
class, whose body is modelled by `mkIntf`. -/
def algoSHA1 (sik : List Nat) : Intf :=
  { K1 := hmacSha1 sik const1, authCodeLength := SHA1_96_AUTHCODE_LENGTH }

/-- The `AlgoSHA1` constructor routed through the checked base-class
constructor model. -/
def mkAlgoSHA1 (sik : List Nat) : Option Intf :=
  mkIntf sik const1 SHA1_96_AUTHCODE_LENGTH

/-- Modelled from the spec: `AlgoSHA1::generateHMAC` (body in
`integrity_algo.cpp`, not among the sources) computes the full HMAC-SHA1
digest keyed with `K1` over the message and truncates it to the leading
`authCodeLength` bytes. -/
def generateHMAC (a : Intf) (input : List Nat) : List Nat :=
  (hmacSha1 a.K1 input).take a.authCodeLength

/-- Modelled from the spec: `AlgoSHA1::generateIntegrityData` (body in
`integrity_algo.cpp`, not among the sources) computes the AuthCode of the
whole input buffer; per the header it receives only the packet, so the
message is all of `packet`. -/
def generateIntegrityData (a : Intf) (packet : List Nat) : List Nat :=
  generateHMAC a packet

/-- Modelled from the spec: `AlgoSHA1::verifyIntegrityData` (body in
`integrity_algo.cpp`, not among the sources) recomputes the AuthCode over the
first `len` bytes of the packet and compares it byte-for-byte over
`authCodeLength` bytes with the offered code, which the header addresses by a
const iterator into the packet, embedded as the byte list `integrityData`
readable from that position onwards.  A signed length exceeding the packet
length is a caller contract violation and must fail loudly (modelled as
`none`). -/
def verifyIntegrityData (a : Intf) (packet : List Nat) (len : Nat)
    (integrityData : List Nat) : Option Bool :=
  if len ≤ packet.length then
    some (decide (generateHMAC a (packet.take len) = integrityData.take a.authCodeLength))
  else
    none

/-- The SHA-1 digest always serializes to twenty bytes. -/
theorem sha1Out_length (h : Nat) : (sha1Out h).length = 20 := by
  simp [sha1Out, wordToBytes]

/-- SHA-1 always produces a 20-byte digest. -/
theorem sha1_length (msg : List Nat) : (sha1 msg).length = 20 :=
  sha1Out_length _

/-- HMAC-SHA1 always produces a 20-byte digest. -/
theorem hmacSha1_length (key msg : List Nat) : (hmacSha1 key msg).length = 20 :=
  sha1_length _

/-- The truncated per-packet HMAC of the HMAC-SHA1-96 instance is always
twelve bytes long. -/
theorem generateHMAC_length (sik msg : List Nat) :
    (generateHMAC (algoSHA1 sik) msg).length = 12 := by
  simp [generateHMAC, algoSHA1, SHA1_96_AUTHCODE_LENGTH, hmacSha1_length]

/-- SHA-1 test vector: the digest of `"abc"`. -/
theorem sha1_vector_abc :
    sha1 [97, 98, 99] =
      [169, 153, 62, 54, 71, 6, 129, 106, 186, 62, 37, 113,
       120, 80, 194, 108, 156, 208, 216, 157] := by
  decide

/-- Inner hash of the RFC 2202 case-1 HMAC: SHA-1 of the ipad-masked key
block followed by the message "Hi There". -/
theorem rfc2202_inner :
    sha1 (((hmacPad (List.replicate 20 11)).map (fun b => b ^^^ 54)) ++
        [72, 105, 32, 84, 104, 101, 114, 101]) =
      [55, 102, 55, 200, 146, 61, 197, 149, 228, 26, 39, 151,
       46, 153, 81, 33, 29, 64, 206, 152] := by
  decide

/-- Outer hash of the RFC 2202 case-1 HMAC: SHA-1 of the opad-masked key
block followed by the inner digest. -/
theorem rfc2202_outer :
    sha1 (((hmacPad (List.replicate 20 11)).map (fun b => b ^^^ 92)) ++
        [55, 102, 55, 200, 146, 61, 197, 149, 228, 26, 39, 151,
         46, 153, 81, 33, 29, 64, 206, 152]) =
      [182, 23, 49, 134, 85, 5, 114, 100, 226, 139, 192, 182,
       251, 55, 140, 142, 241, 70, 190, 0] := by
  decide

/-- HMAC-SHA1 test vector (RFC 2202, case 1): key of twenty `0x0b` bytes,
message "Hi There". -/
theorem hmacSha1_vector_rfc2202 :
    hmacSha1 (List.replicate 20 11) [72, 105, 32, 84, 104, 101, 114, 101] =
      [182, 23, 49, 134, 85, 5, 114, 100, 226, 139, 192, 182,
       251, 55, 140, 142, 241, 70, 190, 0] := by
  unfold hmacSha1
  rw [rfc2202_inner]
  exact rfc2202_outer

/-- The sample SIK of the spec's end-to-end example: twenty zero bytes. -/
def testSik : List Nat := List.replicate 20 0

/-- The sample signed region of the spec's end-to-end example: the ASCII
bytes of "test-packet". -/
def testPacket : List Nat := [116, 101, 115, 116, 45, 112, 97, 99, 107, 101, 116]

/-- The derived key K1 of the end-to-end example, as a literal. -/
def sampleK1 : List Nat :=
  [41, 51, 15, 238, 174, 97, 113, 236, 18, 13, 246, 177,
   42, 11, 152, 136, 166, 244, 55, 223]

/-- Inner hash of the end-to-end key derivation. -/
theorem sample_k1_inner :
    sha1 (((hmacPad testSik).map (fun b => b ^^^ 54)) ++ const1) =
      [206, 36, 185, 56, 20, 48, 210, 184, 116, 16, 254, 138,
       169, 253, 54, 69, 245, 207, 55, 1] := by
  decide

/-- Outer hash of the end-to-end key derivation. -/
theorem sample_k1_outer :
    sha1 (((hmacPad testSik).map (fun b => b ^^^ 92)) ++
        [206, 36, 185, 56, 20, 48, 210, 184, 116, 16, 254, 138,
         169, 253, 54, 69, 245, 207, 55, 1]) = sampleK1 := by
  decide

/-- The end-to-end derived key: K1 of the all-zero SIK. -/
theorem sample_k1 : hmacSha1 testSik const1 = sampleK1 := by
  unfold hmacSha1
  rw [sample_k1_inner]
  exact sample_k1_outer

/-- Inner hash of the end-to-end per-packet HMAC over "test-packet". -/
theorem sample_gen_inner :
    sha1 (((hmacPad sampleK1).map (fun b => b ^^^ 54)) ++ testPacket) =
      [157, 48, 180, 211, 81, 95, 207, 186, 39, 79, 96, 213,
       117, 33, 184, 143, 2, 97, 105, 85] := by
  decide

/-- Outer hash of the end-to-end per-packet HMAC over "test-packet". -/
theorem sample_gen_outer :
    sha1 (((hmacPad sampleK1).map (fun b => b ^^^ 92)) ++
        [157, 48, 180, 211, 81, 95, 207, 186, 39, 79, 96, 213,
         117, 33, 184, 143, 2, 97, 105, 85]) =
      [6, 78, 61, 42, 222, 62, 69, 224, 249, 0, 199, 254,
       11, 150, 114, 148, 18, 134, 207, 124] := by
  decide

/-- The full per-packet HMAC of the end-to-end example over "test-packet". -/
theorem sample_gen : hmacSha1 sampleK1 testPacket =
    [6, 78, 61, 42, 222, 62, 69, 224, 249, 0, 199, 254,
     11, 150, 114, 148, 18, 134, 207, 124] := by
  unfold hmacSha1
  rw [sample_gen_inner]
  exact sample_gen_outer

/-- Inner hash of the per-packet HMAC over "test-packet" with one trailing
zero byte appended. -/
theorem sample_gen0_inner :
    sha1 (((hmacPad sampleK1).map (fun b => b ^^^ 54)) ++ (testPacket ++ [0])) =
      [80, 227, 197, 57, 22, 61, 32, 167, 36, 112, 30, 250,
       26, 87, 114, 77, 101, 163, 164, 220] := by
  decide

/-- Outer hash of the per-packet HMAC over "test-packet" with one trailing
zero byte appended. -/
theorem sample_gen0_outer :
    sha1 (((hmacPad sampleK1).map (fun b => b ^^^ 92)) ++
        [80, 227, 197, 57, 22, 61, 32, 167, 36, 112, 30, 250,
         26, 87, 114, 77, 101, 163, 164, 220]) =
      [111, 62, 1, 112, 167, 24, 230, 133, 201, 144, 51, 177,
       139, 173, 201, 28, 209, 165, 179, 84] := by
  decide

/-- The full per-packet HMAC over "test-packet" with one trailing zero
byte appended. -/
theorem sample_gen0 : hmacSha1 sampleK1 (testPacket ++ [0]) =
    [111, 62, 1, 112, 167, 24, 230, 133, 201, 144, 51, 177,
     139, 173, 201, 28, 209, 165, 179, 84] := by
  unfold hmacSha1
  rw [sample_gen0_inner]
  exact sample_gen0_outer

/-- The truncated AuthCode of the end-to-end example. -/
theorem sample_authcode : generateHMAC (algoSHA1 testSik) testPacket =
    [6, 78, 61, 42, 222, 62, 69, 224, 249, 0, 199, 254] := by
  show (hmacSha1 (hmacSha1 testSik const1) testPacket).take 12 = _
  rw [sample_k1, sample_gen]
  decide

/-- C1: for every constructed AlgoSHA1 instance and every packet buffer (the
signed region), the AuthCode returned by `generateIntegrityData` equals the
first `authCodeLength` (= 12) bytes of the full 20-byte HMAC-SHA1 digest
computed with key K1 over the signed region; truncation keeps the leading
bytes and discards the rest (take ++ drop restores the full digest, so no
folding), and the embedded HMAC-SHA1 matches the published RFC 2202
reference vector. -/
theorem generate_truncates_full_hmac (sik packet : List Nat) :
    (algoSHA1 sik).authCodeLength = 12 ∧
    generateIntegrityData (algoSHA1 sik) packet
      = (hmacSha1 (algoSHA1 sik).K1 packet).take 12 ∧
    (hmacSha1 (algoSHA1 sik).K1 packet).length = 20 ∧
    (generateIntegrityData (algoSHA1 sik) packet).length = 12 ∧
    generateIntegrityData (algoSHA1 sik) packet
        ++ (hmacSha1 (algoSHA1 sik).K1 packet).drop 12
      = hmacSha1 (algoSHA1 sik).K1 packet ∧
    hmacSha1 (List.replicate 20 11) [72, 105, 32, 84, 104, 101, 114, 101] =
      [182, 23, 49, 134, 85, 5, 114, 100, 226, 139, 192, 182,
       251, 55, 140, 142, 241, 70, 190, 0] := by
  refine ⟨rfl, rfl, hmacSha1_length _ _, generateHMAC_length _ _, ?_,
    hmacSha1_vector_rfc2202⟩
  show (hmacSha1 (algoSHA1 sik).K1 packet).take 12 ++ _ = _
  exact List.take_append_drop 12 _

/-- C2: for every non-empty SIK, the constructed HMAC-SHA1-96 instance has
K1 = HMAC-SHA1(key = SIK, message = const1) with const1 the twenty-byte
constant of repeated 0x01; K1 is twenty bytes (the SHA-1 digest size), is the
value stored at construction (also through the checked base constructor), and
is the key of every subsequent per-packet HMAC computation. -/
theorem k1_derivation (sik : List Nat) (h : sik ≠ []) :
    (algoSHA1 sik).K1 = hmacSha1 sik const1 ∧
    const1 = List.replicate 20 1 ∧
    (algoSHA1 sik).K1.length = 20 ∧
    mkAlgoSHA1 sik = some (algoSHA1 sik) ∧
    ∀ msg : List Nat, generateHMAC (algoSHA1 sik) msg
      = (hmacSha1 (hmacSha1 sik const1) msg).take 12 := by
  refine ⟨rfl, by decide, hmacSha1_length _ _, ?_, fun msg => rfl⟩
  simp [mkAlgoSHA1, mkIntf, algoSHA1, SHA1_96_AUTHCODE_LENGTH, SHA_DIGEST_LENGTH]

/-- Witness for C2 at the one-byte SIK `[0xAA]`. -/
theorem k1_derivation_witness :
    ([170] : List Nat) ≠ [] ∧
    (algoSHA1 [170]).K1 = hmacSha1 [170] const1 ∧
    mkAlgoSHA1 [170] = some (algoSHA1 [170]) ∧
    generateHMAC (algoSHA1 [170]) [5] = (hmacSha1 (hmacSha1 [170] const1) [5]).take 12 :=
  ⟨by decide, (k1_derivation [170] (by decide)).1,
    (k1_derivation [170] (by decide)).2.2.2.1,
    (k1_derivation [170] (by decide)).2.2.2.2 [5]⟩

/-- C3: for every packet and signed length not exceeding the packet length,
verifying a packet against the AuthCode freshly generated over its signed
region succeeds. -/
theorem verify_roundtrip (sik packet : List Nat) (len : Nat)
    (h : len ≤ packet.length) :
    verifyIntegrityData (algoSHA1 sik) packet len
      (generateIntegrityData (algoSHA1 sik) (packet.take len)) = some true := by
  unfold verifyIntegrityData
  rw [if_pos h]
  simp [generateIntegrityData, generateHMAC, List.take_take]

/-- Witness for C3 at a three-byte packet with signed length two. -/
theorem verify_roundtrip_witness :
    2 ≤ ([5, 6, 7] : List Nat).length ∧
    verifyIntegrityData (algoSHA1 [0]) [5, 6, 7] 2
      (generateIntegrityData (algoSHA1 [0]) ([5, 6, 7].take 2)) = some true :=
  ⟨by decide, verify_roundtrip [0] [5, 6, 7] 2 (by decide)⟩

/-- C4: within the caller contract (signed length at most the packet length),
verification returns `some true` exactly when the offered code agrees
byte-for-byte over `authCodeLength` bytes with the code the algorithm itself
generates for that signed region; the result is always a boolean (never the
contract-violation outcome), and an offered code shorter than
`authCodeLength` (here any eleven-byte read) is a mismatch yielding
`some false`. -/
theorem verify_iff_match (sik packet code : List Nat) (len : Nat)
    (h : len ≤ packet.length) :
    (verifyIntegrityData (algoSHA1 sik) packet len code = some true ↔
      code.take 12 = generateIntegrityData (algoSHA1 sik) (packet.take len)) ∧
    (verifyIntegrityData (algoSHA1 sik) packet len code = some true ∨
      verifyIntegrityData (algoSHA1 sik) packet len code = some false) ∧
    verifyIntegrityData (algoSHA1 sik) packet len (code.take 11) = some false := by
  have hacl : (algoSHA1 sik).authCodeLength = 12 := rfl
  unfold verifyIntegrityData
  rw [if_pos h, hacl]
  refine ⟨?_, ?_, ?_⟩
  · simp only [Option.some.injEq, decide_eq_true_eq, generateIntegrityData]
    exact eq_comm
  · by_cases hc : generateHMAC (algoSHA1 sik) (packet.take len) = code.take 12
    · exact Or.inl (by simp [hc])
    · exact Or.inr (by simp [hc])
  · rw [if_pos h]
    have hlen12 : (generateHMAC (algoSHA1 sik) (packet.take len)).length = 12 :=
      generateHMAC_length sik _
    have hne : generateHMAC (algoSHA1 sik) (packet.take len)
        ≠ (code.take 11).take 12 := by
      intro he
      have hl := congrArg List.length he
      rw [hlen12] at hl
      simp [List.length_take] at hl
      omega
    simp only [Option.some.injEq, decide_eq_false_iff_not]
    exact hne

/-- Witness for C4 at a one-byte packet, signed length one, offered code
`[1, 2]`. -/
theorem verify_iff_match_witness :
    1 ≤ ([9] : List Nat).length ∧
    ((verifyIntegrityData (algoSHA1 []) [9] 1 [1, 2] = some true ↔
      ([1, 2] : List Nat).take 12 = generateIntegrityData (algoSHA1 []) ([9].take 1)) ∧
    (verifyIntegrityData (algoSHA1 []) [9] 1 [1, 2] = some true ∨
      verifyIntegrityData (algoSHA1 []) [9] 1 [1, 2] = some false) ∧
    verifyIntegrityData (algoSHA1 []) [9] 1 (([1, 2] : List Nat).take 11) = some false) :=
  ⟨by decide, verify_iff_match [] [9] [1, 2] 1 (by decide)⟩

/-- C5: a signed length exceeding the packet length is a caller contract
violation: verification fails with the explicit error result `none` rather
than reading out of bounds, and constructing the algorithm with an AuthCode
length exceeding the twenty-byte SHA-1 digest size likewise fails with
`none`.  (`generateIntegrityData` takes no signed-length parameter, so no
such violation exists for generation.) -/
theorem contract_violation_fails (sik packet code addKey s : List Nat)
    (len al : Nat) (h1 : packet.length < len) (h2 : SHA_DIGEST_LENGTH < al) :
    verifyIntegrityData (algoSHA1 sik) packet len code = none ∧
    mkIntf s addKey al = none := by
  constructor
  · unfold verifyIntegrityData
    rw [if_neg (by omega)]
  · unfold mkIntf
    rw [if_neg (by omega)]

/-- Witness for C5: signed length two on a one-byte packet, and AuthCode
length 21 at construction. -/
theorem contract_violation_fails_witness :
    ([1] : List Nat).length < 2 ∧ SHA_DIGEST_LENGTH < 21 ∧
    verifyIntegrityData (algoSHA1 []) [1] 2 [] = none ∧
    mkIntf [] const1 21 = none := by
  refine ⟨by decide, by decide, ?_, ?_⟩
  · exact (contract_violation_fails [] [1] [] const1 [] 2 21 (by decide) (by decide)).1
  · exact (contract_violation_fails [] [1] [] const1 [] 2 21 (by decide) (by decide)).2

/-- C6: bytes of the packet after the signed length do not influence the
integrity computations: on two packets agreeing on their first `len` bytes,
generation over the signed region yields the same AuthCode and verification
yields the same result for every offered code. -/
theorem trailing_bytes_independence (sik p1 p2 : List Nat) (len : Nat)
    (h : p1.take len = p2.take len) :
    generateIntegrityData (algoSHA1 sik) (p1.take len)
      = generateIntegrityData (algoSHA1 sik) (p2.take len) ∧
    ∀ code : List Nat, verifyIntegrityData (algoSHA1 sik) p1 len code
      = verifyIntegrityData (algoSHA1 sik) p2 len code := by
  have hmin : min len p1.length = min len p2.length := by
    have hl := congrArg List.length h
    simpa using hl
  constructor
  · rw [h]
  · intro code
    unfold verifyIntegrityData
    by_cases h1 : len ≤ p1.length
    · have h2 : len ≤ p2.length := by omega
      rw [if_pos h1, if_pos h2, h]
    · have h2 : ¬ len ≤ p2.length := by omega
      rw [if_neg h1, if_neg h2]

/-- Witness for C6 on the packets `[1, 2, 9]` and `[1, 2]` with signed
length two. -/
theorem trailing_bytes_independence_witness :
    ([1, 2, 9] : List Nat).take 2 = ([1, 2] : List Nat).take 2 ∧
    verifyIntegrityData (algoSHA1 [3]) [1, 2, 9] 2 [7]
      = verifyIntegrityData (algoSHA1 [3]) [1, 2] 2 [7] :=
  ⟨by decide, (trailing_bytes_independence [3] [1, 2, 9] [1, 2] 2 (by decide)).2 [7]⟩

/-- One invocation on an algorithm instance: the two virtual calls the
interface exposes. -/
inductive Op : Type where
  | gen : List Nat → Op
  | ver : List Nat → Nat → List Nat → Op

/-- The value returned by one invocation. -/
inductive Res : Type where
  | auth : List Nat → Res
  | verdict : Option Bool → Res
deriving DecidableEq

/-- One call on the instance.  Both methods are `const` on a class whose only
data members are `K1` and `authCodeLength`, so a call returns the instance
state unchanged alongside its result. -/
def stepOp (a : Intf) : Op → Intf × Res
  | Op.gen p => (a, Res.auth (generateIntegrityData a p))
  | Op.ver p len c => (a, Res.verdict (verifyIntegrityData a p len c))

/-- Run a sequence of calls on one instance, threading the instance state
through every call. -/
def runOps : Intf → List Op → Intf × List Res
  | a, [] => (a, [])
  | a, op :: ops =>
      ((runOps (stepOp a op).1 ops).1, (stepOp a op).2 :: (runOps (stepOp a op).1 ops).2)

/-- A call never mutates the instance. -/
theorem stepOp_fst (a : Intf) (op : Op) : (stepOp a op).1 = a := by
  cases op <;> rfl

/-- Running a call sequence leaves the instance unchanged and each result is
a function of the initial instance and that call alone. -/
theorem runOps_spec (a : Intf) (ops : List Op) :
    runOps a ops = (a, ops.map fun op => (stepOp a op).2) := by
  induction ops with
  | nil => rfl
  | cons op ops ih => simp [runOps, stepOp_fst, ih]

/-- C7: the instance constructed from a fixed SIK holds no per-call mutable
state: any sequence of generate/verify calls leaves the instance unchanged,
and every call's result is a function of the instance and that call's
arguments alone, so identical calls yield identical results on every
invocation. -/
theorem stateless_determinism (sik : List Nat) (ops : List Op) :
    (runOps (algoSHA1 sik) ops).1 = algoSHA1 sik ∧
    (runOps (algoSHA1 sik) ops).2
      = ops.map (fun op => (stepOp (algoSHA1 sik) op).2) := by
  rw [runOps_spec]
  exact ⟨rfl, rfl⟩

/-- Modelled from the spec: the dispatch of the session layer over the
negotiated `Algorithms` variant is not among the sources (only the
enumeration is).  Per the spec, the NONE variant generates an empty AuthCode,
HMAC_SHA1_96 dispatches to the `AlgoSHA1` instance, and the remaining
variants are outside this core. -/
def dispatchGenerate : Algorithms → List Nat → List Nat → Option (List Nat)
  | Algorithms.NONE, _, _ => some []
  | Algorithms.HMAC_SHA1_96, sik, packet =>
      some (generateIntegrityData (algoSHA1 sik) packet)
  | _, _, _ => none

/-- Modelled from the spec: verification dispatch over the negotiated
`Algorithms` variant; under NONE verification always succeeds.  See
`dispatchGenerate`. -/
def dispatchVerify : Algorithms → List Nat → List Nat → Nat → List Nat →
    Option (Option Bool)
  | Algorithms.NONE, _, _, _, _ => some (some true)
  | Algorithms.HMAC_SHA1_96, sik, packet, len, code =>
      some (verifyIntegrityData (algoSHA1 sik) packet len code)
  | _, _, _, _, _ => none

/-- C8: under the NONE variant, generation returns an empty AuthCode and
verification returns true, for every packet, signed length and offered
code. -/
theorem none_variant_noop (sik packet code : List Nat) (len : Nat) :
    dispatchGenerate Algorithms.NONE sik packet = some [] ∧
    dispatchVerify Algorithms.NONE sik packet len code = some (some true) :=
  ⟨rfl, rfl⟩

/-- C9: `generateIntegrityData` receives only the packet buffer, and the
AuthCode is the truncated HMAC over all bytes of that buffer: the message
fed to HMAC-SHA1 under key K1 is the entire input, and appending a byte to
the buffer changes the AuthCode, so the caller must pass exactly the signed
region. -/
theorem generate_whole_buffer :
    (∀ sik packet : List Nat, generateIntegrityData (algoSHA1 sik) packet
      = (hmacSha1 (hmacSha1 sik const1) packet).take 12) ∧
    generateIntegrityData (algoSHA1 testSik) (testPacket ++ [0])
      ≠ generateIntegrityData (algoSHA1 testSik) testPacket := by
  have hgen : ∀ sik packet : List Nat, generateIntegrityData (algoSHA1 sik) packet
      = (hmacSha1 (hmacSha1 sik const1) packet).take 12 := fun _ _ => rfl
  refine ⟨hgen, ?_⟩
  rw [hgen testSik (testPacket ++ [0]), hgen testSik testPacket,
    sample_k1, sample_gen, sample_gen0]
  decide

/-- C10: verification reads the offered AuthCode through an iterator with no
length of its own: the verdict depends on exactly the `authCodeLength` (= 12)
bytes readable at that position, so two offered streams agreeing on those
twelve bytes are indistinguishable and any bytes beyond them are never
read. -/
theorem verify_iterator_window (sik p c1 c2 : List Nat) (len : Nat)
    (h : c1.take 12 = c2.take 12) :
    verifyIntegrityData (algoSHA1 sik) p len c1
      = verifyIntegrityData (algoSHA1 sik) p len c2 ∧
    verifyIntegrityData (algoSHA1 sik) p len c1
      = verifyIntegrityData (algoSHA1 sik) p len (c1.take 12) ∧
    (algoSHA1 sik).authCodeLength = 12 := by
  have hacl : (algoSHA1 sik).authCodeLength = 12 := rfl
  refine ⟨?_, ?_, hacl⟩
  · unfold verifyIntegrityData
    rw [hacl, h]
  · unfold verifyIntegrityData
    rw [hacl, List.take_take, Nat.min_self]

/-- Witness for C10 on two offered streams agreeing on their first twelve
bytes and differing afterwards. -/
theorem verify_iterator_window_witness :
    (List.replicate 12 7 ++ [1] : List Nat).take 12
      = (List.replicate 12 7 ++ [2] : List Nat).take 12 ∧
    verifyIntegrityData (algoSHA1 []) [9] 1 (List.replicate 12 7 ++ [1])
      = verifyIntegrityData (algoSHA1 []) [9] 1 (List.replicate 12 7 ++ [2]) :=
  ⟨by decide, (verify_iterator_window [] [9] (List.replicate 12 7 ++ [1])
    (List.replicate 12 7 ++ [2]) 1 (by decide)).1⟩

/-- End-to-end example of the spec: for the SIK of twenty zero bytes and the
signed region "test-packet", the generated AuthCode is the twelve bytes
below; verifying the packet with that AuthCode appended succeeds, and
verifying with its first byte incremented fails. -/
theorem end_to_end_example :
    generateIntegrityData (algoSHA1 testSik) testPacket =
      [6, 78, 61, 42, 222, 62, 69, 224, 249, 0, 199, 254] ∧
    verifyIntegrityData (algoSHA1 testSik)
      (testPacket ++ [6, 78, 61, 42, 222, 62, 69, 224, 249, 0, 199, 254]) 11
      [6, 78, 61, 42, 222, 62, 69, 224, 249, 0, 199, 254] = some true ∧
    verifyIntegrityData (algoSHA1 testSik)
      (testPacket ++ [6, 78, 61, 42, 222, 62, 69, 224, 249, 0, 199, 254]) 11
      [7, 78, 61, 42, 222, 62, 69, 224, 249, 0, 199, 254] = some false := by
  have hpre : (testPacket ++
      [6, 78, 61, 42, 222, 62, 69, 224, 249, 0, 199, 254]).take 11 = testPacket := by
    decide
  refine ⟨sample_authcode, ?_, ?_⟩
  · unfold verifyIntegrityData
    rw [if_pos (by decide), hpre, sample_authcode]
    decide
  · unfold verifyIntegrityData
    rw [if_pos (by decide), hpre, sample_authcode]
    decide

end Integrity

end Cipher
